import Mathlib

/-!
Shallow embedding of the KeptnWorkloadInstance reconciler
(operator/controllers/keptnworkloadinstance_controller.go).

The reconciler talks to an external object store (the cluster API) through
Get / Create / Update / Delete calls.  Every such call is modelled by a field
of an environment record `Env`: the environment decides, for each call the
reconciler may issue, whether the call succeeds and what it returns.  The
reconciler itself is then a pure function of the fetched instance and the
environment, returning the reconcile outcome together with the ordered list
of store side effects it performed.
-/

/-- Store errors distinguished by the reconciler (via errors.IsNotFound and
errors.IsAlreadyExists) or merely propagated. -/
inductive StoreError where
  | notFound
  | alreadyExists
  | conflict
  | unavailable
  | permission
  | cancelled
deriving DecidableEq, Repr

/-- Phase of a workload instance direction, the values of the
WorkloadInstanceNotStarted / Running / Succeeded / Failed constants. -/
inductive Phase where
  | notStarted
  | running
  | succeeded
  | failed
deriving DecidableEq, Repr

/-- String rendering of a phase, as in string(workloadInstance.Status.PreDeploymentPhase). -/
def Phase.toStr : Phase → String
  | .notStarted => "NotStarted"
  | .running => "Running"
  | .succeeded => "Succeeded"
  | .failed => "Failed"

/-- Phase of a check-task Event.  `unset` is the zero value of the Go string
type, carried by a freshly allocated Event struct that was never written. -/
inductive EventPhase where
  | unset
  | pending
  | running
  | succeeded
  | failed
deriving DecidableEq, Repr

/-- Spec of a pre/post deployment check (opaque task payload). -/
structure CheckSpec where
  jobSpec : String
deriving DecidableEq, Repr

/-- Spec part of a KeptnWorkloadInstance. -/
structure WorkloadInstanceSpec where
  appName : String
  preDeploymentCheck : CheckSpec
  postDeploymentCheck : CheckSpec
deriving DecidableEq, Repr

/-- Status part of a KeptnWorkloadInstance. -/
structure WorkloadInstanceStatus where
  preDeploymentPhase : Phase
  postDeploymentPhase : Phase
  preDeploymentTaskName : String
  postDeploymentTaskName : String
deriving DecidableEq, Repr

/-- A KeptnWorkloadInstance object: identity, metadata, spec and status. -/
structure WorkloadInstance where
  name : String
  ns : String
  kind : String
  annots : List (String × String)
  spec : WorkloadInstanceSpec
  status : WorkloadInstanceStatus
deriving DecidableEq, Repr

/-- Spec of a check-task Event (klcv1alpha1.EventSpec). -/
structure TaskEventSpec where
  service : String
  application : String
  jobSpec : String
deriving DecidableEq, Repr

/-- Status of a check-task Event. -/
structure TaskEventStatus where
  phase : EventPhase
deriving DecidableEq, Repr

/-- A check-task Event object (klcv1alpha1.Event). -/
structure TaskEvent where
  name : String
  ns : String
  annots : List (String × String)
  spec : TaskEventSpec
  status : TaskEventStatus
deriving DecidableEq, Repr

/-- The zero value of the Event struct, as allocated at the top of
getPreDeploymentChecksEvent and left untouched when Get fails. -/
def zeroTaskEvent : TaskEvent :=
  { name := "", ns := "", annots := [],
    spec := { service := "", application := "", jobSpec := "" },
    status := { phase := .unset } }

/-- An audit event record (corev1.Event) as built by generateK8sEvent.
Timestamps are instants, modelled as naturals. -/
structure K8sEvent where
  generateName : String
  ns : String
  resourceVersion : String
  annots : List (String × String)
  involvedKind : String
  involvedNamespace : String
  involvedName : String
  reason : String
  message : String
  sourceComponent : String
  type : String
  eventTime : Nat
  firstTimestamp : Nat
  lastTimestamp : Nat
  action : String
  reportingController : String
  reportingInstance : String
deriving DecidableEq, Repr

/-- Terminal test on a phase: Succeeded or Failed. -/
def Phase.isTerminal : Phase → Bool
  | .succeeded => true
  | .failed => true
  | _ => false

/-- Modelled from the spec: the method KeptnWorkloadInstance.IsCompleted lives
in the api/v1alpha1 package, which is not part of the excerpt.  Per the data
model section it is true iff both phases are terminal (Succeeded or Failed). -/
def WorkloadInstance.IsCompleted (wi : WorkloadInstance) : Bool :=
  wi.status.preDeploymentPhase.isTerminal && wi.status.postDeploymentPhase.isTerminal

/-- Modelled from the spec: the method KeptnWorkloadInstance.IsDeploymentCheckNotCreated
lives in the api/v1alpha1 package, which is not part of the excerpt.  Per the
state machine section, a check is not yet created exactly when the (pre-deployment)
phase is NotStarted. -/
def WorkloadInstance.IsDeploymentCheckNotCreated (wi : WorkloadInstance) : Bool :=
  wi.status.preDeploymentPhase = Phase.notStarted

/-- Modelled from the spec: the method Event.IsCompleted lives in the
api/v1alpha1 package, which is not part of the excerpt.  Per the data model
section it is true iff the task phase is Succeeded or Failed. -/
def TaskEvent.IsCompleted (ev : TaskEvent) : Bool :=
  ev.status.phase = EventPhase.succeeded || ev.status.phase = EventPhase.failed

/-- One store side effect performed (successfully) by a reconcile pass, in
program order.  `deleteInstance` is in the vocabulary so that the frame claim
that the reconciler never deletes the workload instance itself is statable. -/
inductive Effect where
  | createTask (ev : TaskEvent)
  | createK8sEvent (ev : K8sEvent)
  | updateInstanceStatus (wi : WorkloadInstance)
  | deleteTask (ev : TaskEvent)
  | deleteInstance (wi : WorkloadInstance)
deriving DecidableEq, Repr

/-- Reconcile errors, tagged with the failing call as the Go code wraps and
returns the error of that call. -/
inductive ReconcileError where
  | fetchInstance (e : StoreError)
  | startChecks (e : StoreError)
  | createEvent (e : StoreError)
  | statusUpdate (e : StoreError)
  | getTask (e : StoreError)
  | deleteTask (e : StoreError)
deriving DecidableEq, Repr

/-- Result of a reconcile pass: ctrl.Result{} with nil error is `done`,
ctrl.Result{Requeue: true, RequeueAfter: d seconds} is `requeueAfter d`, and a
non-nil error is `error`. -/
inductive ReconcileOutcome where
  | done
  | requeueAfter (seconds : Nat)
  | error (e : ReconcileError)
deriving DecidableEq, Repr

/-- Environment: the responses of the external object store and of the
nondeterministic helpers (uuid generation, clock) to the calls a reconcile
pass may issue.  `none` from a create/update/delete field means the call
succeeded; `some e` means it failed with store error `e`. -/
structure Env where
  suffixes : Nat → String
  createTask : TaskEvent → Option StoreError
  createK8sEvent : K8sEvent → Option StoreError
  statusUpdate : WorkloadInstance → Option StoreError
  getTask : String → String → Except StoreError TaskEvent
  deleteTask : TaskEvent → Option StoreError
  now : Nat

/-- generateSuffix: the first 10 characters of a fresh uuid; the uuid source
is the environment, threaded by the number of calls made so far. -/
def generateSuffix (env : Env) (call : Nat) : String :=
  env.suffixes call

/-- The Event struct literal built at the top of startPreDeploymentChecks:
annotations, name base-"-"-suffix, namespace, and spec copied from the
workload instance; status left at its zero value. -/
def initialTaskEvent (env : Env) (wi : WorkloadInstance) : TaskEvent :=
  { name := wi.name ++ "-" ++ generateSuffix env 0
    ns := wi.ns
    annots := wi.annots
    spec :=
      { service := wi.name
        application := wi.spec.appName
        jobSpec := wi.spec.preDeploymentCheck.jobSpec }
    status := { phase := .unset } }

/-- The event attempted on try `m` of the creation loop: the initial event
with the name regenerated from the m-th suffix (try 0 is the initial event). -/
def attemptTaskEvent (env : Env) (wi : WorkloadInstance) (m : Nat) : TaskEvent :=
  { initialTaskEvent env wi with name := wi.name ++ "-" ++ generateSuffix env m }

/-- The for-loop of startPreDeploymentChecks.  `fuel` is the number of
remaining iterations (5 minus the iterations already run), `sIdx` the index of
the next generateSuffix call.  On Create success the loop breaks and the
function returns the created name; on AlreadyExists it renames and retries; on
any other error it returns that error.  When the fuel runs out the loop exits
and the function still returns event.Name with a nil error, exactly as the Go
code does (the final return is outside the loop). -/
def startLoop (env : Env) (base : String) (sIdx : Nat) (ev : TaskEvent) :
    Nat → Except StoreError String × List Effect
  | 0 => (Except.ok ev.name, [])
  | fuel + 1 =>
    match env.createTask ev with
    | some e =>
      if e = StoreError.alreadyExists then
        startLoop env base (sIdx + 1)
          { ev with name := base ++ "-" ++ generateSuffix env sIdx } fuel
      else
        (Except.error e, [])
    | none => (Except.ok ev.name, [Effect.createTask ev])

/-- startPreDeploymentChecks: builds the Event and runs the bounded creation
loop (5 iterations; first rename uses the second generateSuffix call). -/
def startPreDeploymentChecks (env : Env) (wi : WorkloadInstance) :
    Except StoreError String × List Effect :=
  startLoop env wi.name 1 (initialTaskEvent env wi) 5

/-- generateK8sEvent: the corev1.Event literal of the Go source.  The three
time.Now() calls are the emission instant `now` of the environment. -/
def generateK8sEvent (wi : WorkloadInstance) (eventType : String) (now : Nat) : K8sEvent :=
  { generateName := wi.name ++ "-" ++ eventType ++ "-"
    ns := wi.ns
    resourceVersion := "v1alpha1"
    annots := wi.annots
    involvedKind := wi.kind
    involvedNamespace := wi.ns
    involvedName := wi.name
    reason := wi.status.preDeploymentPhase.toStr
    message := "pre-deployment checks are " ++ eventType
    sourceComponent := wi.kind
    type := "Normal"
    eventTime := now
    firstTimestamp := now
    lastTimestamp := now
    action := eventType
    reportingController := "workloadInstance-controller"
    reportingInstance := "workloadInstance-controller" }

/-- getPreDeploymentChecksEvent: Get the Event named by
status.PreDeploymentTaskName in the instance namespace.  Only a NotFound
error is returned as an error; any other Get error is dropped and the
zero-valued Event allocated before the call is returned with a nil error,
exactly as in the Go source. -/
def getPreDeploymentChecksEvent (env : Env) (wi : WorkloadInstance) :
    Except StoreError TaskEvent :=
  match env.getTask wi.status.preDeploymentTaskName wi.ns with
  | Except.error e =>
    if e = StoreError.notFound then Except.error e else Except.ok zeroTaskEvent
  | Except.ok ev => Except.ok ev

/-- Trace of one reconcile pass: its outcome, the in-memory workload instance
at return (none when the fetch did not produce one), and the store side
effects performed, in program order. -/
structure ReconcileTrace where
  outcome : ReconcileOutcome
  final : Option WorkloadInstance
  effects : List Effect
deriving DecidableEq, Repr

/-- Reconcile: the body of KeptnWorkloadInstanceReconciler.Reconcile, as a
function of the result of the initial Get (NotFound, other error, or the
fetched instance) and of the environment answering its store calls. -/
def reconcile (env : Env) (fetch : Except StoreError WorkloadInstance) : ReconcileTrace :=
  match fetch with
  | Except.error e =>
    if e = StoreError.notFound then
      { outcome := .done, final := none, effects := [] }
    else
      { outcome := .error (.fetchInstance e), final := none, effects := [] }
  | Except.ok wi =>
    if wi.IsCompleted then
      { outcome := .done, final := some wi, effects := [] }
    else if wi.IsDeploymentCheckNotCreated then
      match startPreDeploymentChecks env wi with
      | (Except.error e, effs) =>
        { outcome := .error (.startChecks e), final := some wi, effects := effs }
      | (Except.ok checkName, effs) =>
        let wi1 : WorkloadInstance :=
          { wi with status :=
            { wi.status with
                preDeploymentTaskName := checkName
                preDeploymentPhase := Phase.running } }
        let k8sEvent := generateK8sEvent wi1 "started" env.now
        match env.createK8sEvent k8sEvent with
        | some e =>
          { outcome := .error (.createEvent e), final := some wi1, effects := effs }
        | none =>
          match env.statusUpdate wi1 with
          | some e =>
            { outcome := .error (.statusUpdate e), final := some wi1,
              effects := effs ++ [Effect.createK8sEvent k8sEvent] }
          | none =>
            { outcome := .requeueAfter 5, final := some wi1,
              effects := effs ++ [Effect.createK8sEvent k8sEvent,
                                  Effect.updateInstanceStatus wi1] }
    else
      match getPreDeploymentChecksEvent env wi with
      | Except.error e =>
        { outcome := .error (.getTask e), final := some wi, effects := [] }
      | Except.ok checksEvent =>
        if checksEvent.IsCompleted then
          let wi1 : WorkloadInstance :=
            { wi with status :=
              { wi.status with
                  preDeploymentPhase :=
                    if checksEvent.status.phase = EventPhase.failed then
                      Phase.failed
                    else
                      Phase.succeeded } }
          match env.deleteTask checksEvent with
          | some e =>
            { outcome := .error (.deleteTask e), final := some wi1, effects := [] }
          | none =>
            match env.statusUpdate wi1 with
            | some e =>
              { outcome := .error (.statusUpdate e), final := some wi1,
                effects := [Effect.deleteTask checksEvent] }
            | none =>
              let k8sEvent := generateK8sEvent wi1 "finished" env.now
              match env.createK8sEvent k8sEvent with
              | some e =>
                { outcome := .error (.createEvent e), final := some wi1,
                  effects := [Effect.deleteTask checksEvent,
                              Effect.updateInstanceStatus wi1] }
              | none =>
                { outcome := .done, final := some wi1,
                  effects := [Effect.deleteTask checksEvent,
                              Effect.updateInstanceStatus wi1,
                              Effect.createK8sEvent k8sEvent] }
        else
          { outcome := .requeueAfter 5, final := some wi, effects := [] }

/-- Status snapshots successfully persisted by a pass, in order. -/
def ReconcileTrace.statusUpdates (t : ReconcileTrace) : List WorkloadInstance :=
  t.effects.filterMap fun eff =>
    match eff with
    | .updateInstanceStatus u => some u
    | _ => none

/-- Check tasks successfully created by a pass, in order. -/
def ReconcileTrace.createdTasks (t : ReconcileTrace) : List TaskEvent :=
  t.effects.filterMap fun eff =>
    match eff with
    | .createTask ev => some ev
    | _ => none

/-- Audit events successfully created by a pass, in order. -/
def ReconcileTrace.createdK8sEvents (t : ReconcileTrace) : List K8sEvent :=
  t.effects.filterMap fun eff =>
    match eff with
    | .createK8sEvent ev => some ev
    | _ => none

/-- Check tasks successfully deleted by a pass, in order. -/
def ReconcileTrace.deletedTasks (t : ReconcileTrace) : List TaskEvent :=
  t.effects.filterMap fun eff =>
    match eff with
    | .deleteTask ev => some ev
    | _ => none

/-- Durable workload-instance state after a pass that fetched `wi`: the last
persisted status snapshot if any, else the state as fetched. -/
def nextState (env : Env) (wi : WorkloadInstance) : WorkloadInstance :=
  (ReconcileTrace.statusUpdates (reconcile env (Except.ok wi))).getLastD wi

/-- Durable state after a sequence of reconcile passes, each answered by its
own environment. -/
def runSeq : List Env → WorkloadInstance → WorkloadInstance
  | [], wi => wi
  | env :: envs, wi => runSeq envs (nextState env wi)

/-- Instance with the pre-deployment status fields set to Running and a given
task name, as written by the create branch of Reconcile. -/
def withPreRunning (wi : WorkloadInstance) (nm : String) : WorkloadInstance :=
  { wi with status :=
    { wi.status with
        preDeploymentTaskName := nm
        preDeploymentPhase := Phase.running } }

/-- Instance with only the pre-deployment phase set, as written by the
completion branch of Reconcile; the task-name field is left untouched. -/
def withPrePhase (wi : WorkloadInstance) (ph : Phase) : WorkloadInstance :=
  { wi with status := { wi.status with preDeploymentPhase := ph } }

/-- The phase the completion branch writes for a completed task: Failed for a
failed task, Succeeded otherwise. -/
def mapEventPhase (ev : TaskEvent) : Phase :=
  if ev.status.phase = EventPhase.failed then Phase.failed else Phase.succeeded

/-- A concrete workload instance, fresh (nothing started yet). -/
def wiBase : WorkloadInstance :=
  { name := "checkout", ns := "prod", kind := "KeptnWorkloadInstance",
    annots := [("keptn.sh/app", "shop")],
    spec := { appName := "shop", preDeploymentCheck := { jobSpec := "image-scan" },
              postDeploymentCheck := { jobSpec := "smoke-test" } },
    status := { preDeploymentPhase := .notStarted, postDeploymentPhase := .notStarted,
                preDeploymentTaskName := "", postDeploymentTaskName := "" } }

/-- An environment in which every store mutation succeeds and the task Get
answers NotFound; suffixes are s0, s1, s2, and so on. -/
def envOk : Env :=
  { suffixes := fun n => "s" ++ toString n,
    createTask := fun _ => none,
    createK8sEvent := fun _ => none,
    statusUpdate := fun _ => none,
    getTask := fun _ _ => Except.error StoreError.notFound,
    deleteTask := fun _ => none,
    now := 42 }

/-- An environment in which every task Create reports a name conflict. -/
def envAllConflict : Env :=
  { envOk with createTask := fun _ => some StoreError.alreadyExists }

/-- The concrete instance mid-flight: pre-deployment Running with the task
name recorded. -/
def wiRunning : WorkloadInstance :=
  { wiBase with status :=
    { wiBase.status with
        preDeploymentPhase := Phase.running
        preDeploymentTaskName := "checkout-s0" } }

/-- An environment in which the task Get fails with a non-NotFound store
error (the store is unavailable). -/
def envUnavailable : Env :=
  { envOk with getTask := fun _ _ => Except.error StoreError.unavailable }

/-- The concrete check task, reported Succeeded by its executor. -/
def taskSucceeded : TaskEvent :=
  { name := "checkout-s0", ns := "prod", annots := [("keptn.sh/app", "shop")],
    spec := { service := "checkout", application := "shop", jobSpec := "image-scan" },
    status := { phase := .succeeded } }

/-- An environment in which the task Get returns the succeeded task. -/
def envTaskDone : Env :=
  { envOk with getTask := fun _ _ => Except.ok taskSucceeded }

/-- The concrete instance with pre-deployment Failed and post-deployment not
yet terminal. -/
def wiPreFailed : WorkloadInstance :=
  { wiBase with status :=
    { wiBase.status with
        preDeploymentPhase := Phase.failed
        preDeploymentTaskName := "checkout-s0" } }

/-- A generated task name, base and dash and suffix, is never empty. -/
theorem dash_name_ne_empty (a s : String) : a ++ "-" ++ s ≠ "" := by
  intro h
  have h2 : (a ++ "-" ++ s).length = ("" : String).length := by rw [h]
  rw [String.length_append, String.length_append] at h2
  have h3 : ("-" : String).length = 1 := rfl
  have h4 : ("" : String).length = 0 := rfl
  omega

/-- Characterization of the creation loop: it either fails with the error of
the last attempted Create, performing no successful creation, or returns a
name of the base-dash-suffix form, having created at most one task, that task
bearing that name and the metadata and spec of the event it was started
with. -/
theorem startLoop_out (env : Env) (base : String) :
    ∀ (fuel sIdx : Nat) (ev : TaskEvent), (∃ s, ev.name = base ++ "-" ++ s) →
      (∃ e, startLoop env base sIdx ev fuel = (Except.error e, [])) ∨
      (∃ ev2, (startLoop env base sIdx ev fuel = (Except.ok ev2.name, []) ∨
               startLoop env base sIdx ev fuel =
                 (Except.ok ev2.name, [Effect.createTask ev2])) ∧
        (∃ s, ev2.name = base ++ "-" ++ s) ∧ ev2.ns = ev.ns ∧
        ev2.annots = ev.annots ∧ ev2.spec = ev.spec) := by
  intro fuel
  induction fuel with
  | zero =>
    intro sIdx ev hform
    right
    exact ⟨ev, Or.inl rfl, hform, rfl, rfl, rfl⟩
  | succ n ih =>
    intro sIdx ev hform
    rw [startLoop]
    cases hc : env.createTask ev with
    | some e =>
      by_cases he : e = StoreError.alreadyExists
      · simp only [he, if_pos rfl]
        have h2 := ih (sIdx + 1)
          { ev with name := base ++ "-" ++ generateSuffix env sIdx }
          ⟨generateSuffix env sIdx, rfl⟩
        rcases h2 with ⟨e2, h2⟩ | ⟨ev2, hrun, hf, hns, han, hsp⟩
        · exact Or.inl ⟨e2, h2⟩
        · exact Or.inr ⟨ev2, hrun, hf, hns, han, hsp⟩
      · simp only [if_neg he]
        exact Or.inl ⟨e, rfl⟩
    | none =>
      right
      exact ⟨ev, Or.inr rfl, hform, rfl, rfl, rfl⟩

/-- The completed gate: a completed instance yields done with no effects. -/
theorem reconcile_completed (env : Env) (wi : WorkloadInstance)
    (hc : wi.IsCompleted = true) :
    reconcile env (Except.ok wi) =
      { outcome := .done, final := some wi, effects := [] } := by
  simp [reconcile, hc]

/-- Full characterization of the create branch of Reconcile. -/
theorem reconcile_create_branch (env : Env) (wi : WorkloadInstance)
    (hc : wi.IsCompleted = false) (hn : wi.IsDeploymentCheckNotCreated = true) :
    (∃ e, reconcile env (Except.ok wi) =
        { outcome := .error (.startChecks e), final := some wi, effects := [] }) ∨
    (∃ ev2 ct, (ct = ([] : List Effect) ∨ ct = [Effect.createTask ev2]) ∧
      (∃ s, ev2.name = wi.name ++ "-" ++ s) ∧ ev2.ns = wi.ns ∧
      ev2.annots = wi.annots ∧
      ev2.spec = { service := wi.name, application := wi.spec.appName,
                   jobSpec := wi.spec.preDeploymentCheck.jobSpec } ∧
      ((∃ e, env.createK8sEvent
            (generateK8sEvent (withPreRunning wi ev2.name) "started" env.now) = some e ∧
          reconcile env (Except.ok wi) =
            { outcome := .error (.createEvent e),
              final := some (withPreRunning wi ev2.name), effects := ct }) ∨
       (env.createK8sEvent
            (generateK8sEvent (withPreRunning wi ev2.name) "started" env.now) = none ∧
         ((∃ e, env.statusUpdate (withPreRunning wi ev2.name) = some e ∧
             reconcile env (Except.ok wi) =
               { outcome := .error (.statusUpdate e),
                 final := some (withPreRunning wi ev2.name),
                 effects := ct ++ [Effect.createK8sEvent
                   (generateK8sEvent (withPreRunning wi ev2.name) "started" env.now)] }) ∨
          (env.statusUpdate (withPreRunning wi ev2.name) = none ∧
            reconcile env (Except.ok wi) =
              { outcome := .requeueAfter 5,
                final := some (withPreRunning wi ev2.name),
                effects := ct ++ [Effect.createK8sEvent
                    (generateK8sEvent (withPreRunning wi ev2.name) "started" env.now),
                  Effect.updateInstanceStatus (withPreRunning wi ev2.name)] }))))) := by
  have hloop := startLoop_out env wi.name 5 1 (initialTaskEvent env wi)
    ⟨generateSuffix env 0, rfl⟩
  have hsl : startLoop env wi.name 1 (initialTaskEvent env wi) 5 =
      startPreDeploymentChecks env wi := rfl
  rw [hsl] at hloop
  rcases hloop with ⟨e, hend⟩ | ⟨ev2, hrun, hf, hns, han, hsp⟩
  · left
    refine ⟨e, ?_⟩
    simp [reconcile, hc, hn, hend]
  · right
    have hns2 : ev2.ns = wi.ns := hns
    have han2 : ev2.annots = wi.annots := han
    have hsp2 : ev2.spec =
        { service := wi.name, application := wi.spec.appName,
          jobSpec := wi.spec.preDeploymentCheck.jobSpec } := hsp
    rcases hrun with hend | hend
    · refine ⟨ev2, [], Or.inl rfl, hf, hns2, han2, hsp2, ?_⟩
      cases hk : env.createK8sEvent
          (generateK8sEvent (withPreRunning wi ev2.name) "started" env.now) with
      | some e =>
        left
        refine ⟨e, rfl, ?_⟩
        simp [reconcile, hc, hn, hend, withPreRunning] at hk ⊢
        simp [hk]
      | none =>
        right
        refine ⟨rfl, ?_⟩
        cases hu : env.statusUpdate (withPreRunning wi ev2.name) with
        | some e =>
          left
          refine ⟨e, rfl, ?_⟩
          simp [reconcile, hc, hn, hend, withPreRunning] at hk hu ⊢
          simp [hk, hu]
        | none =>
          right
          refine ⟨rfl, ?_⟩
          simp [reconcile, hc, hn, hend, withPreRunning] at hk hu ⊢
          simp [hk, hu]
    · refine ⟨ev2, [Effect.createTask ev2], Or.inr rfl, hf, hns2, han2, hsp2, ?_⟩
      cases hk : env.createK8sEvent
          (generateK8sEvent (withPreRunning wi ev2.name) "started" env.now) with
      | some e =>
        left
        refine ⟨e, rfl, ?_⟩
        simp [reconcile, hc, hn, hend, withPreRunning] at hk ⊢
        simp [hk]
      | none =>
        right
        refine ⟨rfl, ?_⟩
        cases hu : env.statusUpdate (withPreRunning wi ev2.name) with
        | some e =>
          left
          refine ⟨e, rfl, ?_⟩
          simp [reconcile, hc, hn, hend, withPreRunning] at hk hu ⊢
          simp [hk, hu]
        | none =>
          right
          refine ⟨rfl, ?_⟩
          simp [reconcile, hc, hn, hend, withPreRunning] at hk hu ⊢
          simp [hk, hu]

/-- Full characterization of the poll branch of Reconcile. -/
theorem reconcile_poll_branch (env : Env) (wi : WorkloadInstance)
    (hc : wi.IsCompleted = false) (hn : wi.IsDeploymentCheckNotCreated = false) :
    (∃ e, getPreDeploymentChecksEvent env wi = Except.error e ∧
      reconcile env (Except.ok wi) =
        { outcome := .error (.getTask e), final := some wi, effects := [] }) ∨
    (∃ ev, getPreDeploymentChecksEvent env wi = Except.ok ev ∧
      ((ev.IsCompleted = false ∧
         reconcile env (Except.ok wi) =
           { outcome := .requeueAfter 5, final := some wi, effects := [] }) ∨
       (ev.IsCompleted = true ∧
         ((∃ e, env.deleteTask ev = some e ∧
            reconcile env (Except.ok wi) =
              { outcome := .error (.deleteTask e),
                final := some (withPrePhase wi (mapEventPhase ev)),
                effects := [] }) ∨
          (env.deleteTask ev = none ∧
            ((∃ e, env.statusUpdate (withPrePhase wi (mapEventPhase ev)) = some e ∧
               reconcile env (Except.ok wi) =
                 { outcome := .error (.statusUpdate e),
                   final := some (withPrePhase wi (mapEventPhase ev)),
                   effects := [Effect.deleteTask ev] }) ∨
             (env.statusUpdate (withPrePhase wi (mapEventPhase ev)) = none ∧
               ((∃ e, env.createK8sEvent (generateK8sEvent
                     (withPrePhase wi (mapEventPhase ev)) "finished" env.now) = some e ∧
                  reconcile env (Except.ok wi) =
                    { outcome := .error (.createEvent e),
                      final := some (withPrePhase wi (mapEventPhase ev)),
                      effects := [Effect.deleteTask ev,
                        Effect.updateInstanceStatus
                          (withPrePhase wi (mapEventPhase ev))] }) ∨
                (env.createK8sEvent (generateK8sEvent
                     (withPrePhase wi (mapEventPhase ev)) "finished" env.now) = none ∧
                  reconcile env (Except.ok wi) =
                    { outcome := .done,
                      final := some (withPrePhase wi (mapEventPhase ev)),
                      effects := [Effect.deleteTask ev,
                        Effect.updateInstanceStatus (withPrePhase wi (mapEventPhase ev)),
                        Effect.createK8sEvent (generateK8sEvent
                          (withPrePhase wi (mapEventPhase ev)) "finished" env.now)] }))))))))) := by
  cases hg : getPreDeploymentChecksEvent env wi with
  | error e =>
    left
    refine ⟨e, rfl, ?_⟩
    simp [reconcile, hc, hn, hg]
  | ok ev =>
    right
    refine ⟨ev, rfl, ?_⟩
    cases hcomp : ev.IsCompleted with
    | false =>
      left
      refine ⟨rfl, ?_⟩
      simp [reconcile, hc, hn, hg, hcomp]
    | true =>
      right
      refine ⟨rfl, ?_⟩
      cases hd : env.deleteTask ev with
      | some e =>
        left
        refine ⟨e, rfl, ?_⟩
        simp [reconcile, hc, hn, hg, hcomp, hd, withPrePhase, mapEventPhase]
      | none =>
        right
        refine ⟨rfl, ?_⟩
        cases hu : env.statusUpdate (withPrePhase wi (mapEventPhase ev)) with
        | some e =>
          left
          refine ⟨e, rfl, ?_⟩
          simp [withPrePhase, mapEventPhase] at hu
          simp [reconcile, hc, hn, hg, hcomp, hd, hu, withPrePhase, mapEventPhase]
        | none =>
          right
          refine ⟨rfl, ?_⟩
          simp [withPrePhase, mapEventPhase] at hu
          cases hk : env.createK8sEvent (generateK8sEvent
              (withPrePhase wi (mapEventPhase ev)) "finished" env.now) with
          | some e =>
            left
            refine ⟨e, rfl, ?_⟩
            simp [withPrePhase, mapEventPhase] at hk
            simp [reconcile, hc, hn, hg, hcomp, hd, hu, hk, withPrePhase, mapEventPhase]
          | none =>
            right
            refine ⟨rfl, ?_⟩
            simp [withPrePhase, mapEventPhase] at hk
            simp [reconcile, hc, hn, hg, hcomp, hd, hu, hk, withPrePhase, mapEventPhase]

/-- Every status snapshot a pass persists is either the Running snapshot with
a generated base-dash-suffix task name (only from a NotStarted instance), or a
terminal-phase snapshot that leaves the task-name field untouched. -/
theorem reconcile_statusUpdates_shape (env : Env) (wi : WorkloadInstance) :
    (reconcile env (Except.ok wi)).statusUpdates = [] ∨
    (∃ s, wi.status.preDeploymentPhase = Phase.notStarted ∧
      (reconcile env (Except.ok wi)).statusUpdates =
        [withPreRunning wi (wi.name ++ "-" ++ s)]) ∨
    (∃ ph, (ph = Phase.succeeded ∨ ph = Phase.failed) ∧
      (reconcile env (Except.ok wi)).statusUpdates = [withPrePhase wi ph]) := by
  by_cases hc : wi.IsCompleted
  · left
    rw [reconcile_completed env wi hc]
    rfl
  · rw [Bool.not_eq_true] at hc
    by_cases hn : wi.IsDeploymentCheckNotCreated
    · have hnot : wi.status.preDeploymentPhase = Phase.notStarted := by
        have h2 := hn
        simp [WorkloadInstance.IsDeploymentCheckNotCreated] at h2
        exact h2
      rcases reconcile_create_branch env wi hc hn with
        ⟨e, hT⟩ | ⟨ev2, ct, hct, ⟨s, hname⟩, hns, han, hsp,
          ⟨e, hk, hT⟩ | ⟨hk, ⟨e, hu, hT⟩ | ⟨hu, hT⟩⟩⟩
      · left
        rw [hT]
        rfl
      · left
        rw [hT]
        rcases hct with h | h <;> rw [h] <;> rfl
      · left
        rw [hT]
        rcases hct with h | h <;> rw [h] <;> rfl
      · right
        left
        refine ⟨s, hnot, ?_⟩
        rw [hT, ← hname]
        rcases hct with h | h <;> rw [h] <;> rfl
    · rw [Bool.not_eq_true] at hn
      rcases reconcile_poll_branch env wi hc hn with
        ⟨e, hg, hT⟩ | ⟨ev, hg, ⟨hcomp, hT⟩ | ⟨hcomp,
          ⟨e, hd, hT⟩ | ⟨hd, ⟨e, hu, hT⟩ | ⟨hu, ⟨e, hk, hT⟩ | ⟨hk, hT⟩⟩⟩⟩⟩
      · left
        rw [hT]
        rfl
      · left
        rw [hT]
        rfl
      · left
        rw [hT]
        rfl
      · left
        rw [hT]
        rfl
      · right
        right
        refine ⟨mapEventPhase ev, ?_, ?_⟩
        · by_cases hf : ev.status.phase = EventPhase.failed
          · right
            simp [mapEventPhase, hf]
          · left
            simp [mapEventPhase, hf]
        · rw [hT]
          rfl
      · right
        right
        refine ⟨mapEventPhase ev, ?_, ?_⟩
        · by_cases hf : ev.status.phase = EventPhase.failed
          · right
            simp [mapEventPhase, hf]
          · left
            simp [mapEventPhase, hf]
        · rw [hT]
          rfl

/-- The in-memory instance at return is the fetched one, a Running snapshot of
it, or a terminal-phase snapshot of it. -/
theorem reconcile_final_shape (env : Env) (wi : WorkloadInstance) :
    (reconcile env (Except.ok wi)).final = some wi ∨
    (∃ nm, (reconcile env (Except.ok wi)).final = some (withPreRunning wi nm)) ∨
    (∃ ph, (ph = Phase.succeeded ∨ ph = Phase.failed) ∧
      (reconcile env (Except.ok wi)).final = some (withPrePhase wi ph)) := by
  by_cases hc : wi.IsCompleted
  · left
    rw [reconcile_completed env wi hc]
  · rw [Bool.not_eq_true] at hc
    by_cases hn : wi.IsDeploymentCheckNotCreated
    · rcases reconcile_create_branch env wi hc hn with
        ⟨e, hT⟩ | ⟨ev2, ct, hct, hf, hns, han, hsp,
          ⟨e, hk, hT⟩ | ⟨hk, ⟨e, hu, hT⟩ | ⟨hu, hT⟩⟩⟩
      · left
        rw [hT]
      · right
        left
        exact ⟨ev2.name, by rw [hT]⟩
      · right
        left
        exact ⟨ev2.name, by rw [hT]⟩
      · right
        left
        exact ⟨ev2.name, by rw [hT]⟩
    · rw [Bool.not_eq_true] at hn
      rcases reconcile_poll_branch env wi hc hn with
        ⟨e, hg, hT⟩ | ⟨ev, hg, ⟨hcomp, hT⟩ | ⟨hcomp,
          ⟨e, hd, hT⟩ | ⟨hd, ⟨e, hu, hT⟩ | ⟨hu, ⟨e, hk, hT⟩ | ⟨hk, hT⟩⟩⟩⟩⟩
      · left
        rw [hT]
      · left
        rw [hT]
      all_goals
        right
        right
        refine ⟨mapEventPhase ev, ?_, by rw [hT]⟩
        by_cases hf2 : ev.status.phase = EventPhase.failed
        · right
          simp [mapEventPhase, hf2]
        · left
          simp [mapEventPhase, hf2]

/-- A pass creates at most one check task; the created task carries the
instance namespace, annotations and the pre-deployment spec payload, and is
only created from a NotStarted instance. -/
theorem reconcile_createdTasks_shape (env : Env) (wi : WorkloadInstance) :
    (reconcile env (Except.ok wi)).createdTasks = [] ∨
    (∃ ev2, (reconcile env (Except.ok wi)).createdTasks = [ev2] ∧
      wi.status.preDeploymentPhase = Phase.notStarted ∧
      ev2.ns = wi.ns ∧ ev2.annots = wi.annots ∧
      ev2.spec = { service := wi.name, application := wi.spec.appName,
                   jobSpec := wi.spec.preDeploymentCheck.jobSpec }) := by
  by_cases hc : wi.IsCompleted
  · left
    rw [reconcile_completed env wi hc]
    rfl
  · rw [Bool.not_eq_true] at hc
    by_cases hn : wi.IsDeploymentCheckNotCreated
    · have hnot : wi.status.preDeploymentPhase = Phase.notStarted := by
        have h2 := hn
        simp [WorkloadInstance.IsDeploymentCheckNotCreated] at h2
        exact h2
      rcases reconcile_create_branch env wi hc hn with
        ⟨e, hT⟩ | ⟨ev2, ct, hct, hf, hns, han, hsp,
          ⟨e, hk, hT⟩ | ⟨hk, ⟨e, hu, hT⟩ | ⟨hu, hT⟩⟩⟩
      · left
        rw [hT]
        rfl
      all_goals
        rcases hct with h | h
        · left
          rw [hT, h]
          rfl
        · right
          refine ⟨ev2, ?_, hnot, hns, han, hsp⟩
          rw [hT, h]
          rfl
    · rw [Bool.not_eq_true] at hn
      rcases reconcile_poll_branch env wi hc hn with
        ⟨e, hg, hT⟩ | ⟨ev, hg, ⟨hcomp, hT⟩ | ⟨hcomp,
          ⟨e, hd, hT⟩ | ⟨hd, ⟨e, hu, hT⟩ | ⟨hu, ⟨e, hk, hT⟩ | ⟨hk, hT⟩⟩⟩⟩⟩
      all_goals
        left
        rw [hT]
        rfl

/-- No reconcile pass, whatever the fetch result, ever performs an instance
deletion. -/
theorem reconcile_no_instance_delete (env : Env) (fetch : Except StoreError WorkloadInstance) :
    ∀ eff ∈ (reconcile env fetch).effects, ∀ w, eff ≠ Effect.deleteInstance w := by
  cases fetch with
  | error e =>
    intro eff heff w
    by_cases he : e = StoreError.notFound <;> simp [reconcile, he] at heff
  | ok wi =>
    by_cases hc : wi.IsCompleted
    · intro eff heff w
      rw [reconcile_completed env wi hc] at heff
      simp at heff
    · rw [Bool.not_eq_true] at hc
      by_cases hn : wi.IsDeploymentCheckNotCreated
      · rcases reconcile_create_branch env wi hc hn with
          ⟨e, hT⟩ | ⟨ev2, ct, hct, hf, hns, han, hsp, hrest⟩
        · intro eff heff w heq
          subst heq
          rw [hT] at heff
          simp at heff
        · rcases hrest with ⟨e, hk, hT⟩ | ⟨hk, ⟨e, hu, hT⟩ | ⟨hu, hT⟩⟩ <;>
            intro eff heff w heq <;> subst heq <;> rw [hT] at heff <;>
            rcases hct with h | h <;> simp [h] at heff
      · rw [Bool.not_eq_true] at hn
        rcases reconcile_poll_branch env wi hc hn with
          ⟨e, hg, hT⟩ | ⟨ev, hg, ⟨hcomp, hT⟩ | ⟨hcomp,
            ⟨e, hd, hT⟩ | ⟨hd, ⟨e, hu, hT⟩ | ⟨hu, ⟨e, hk, hT⟩ | ⟨hk, hT⟩⟩⟩⟩⟩ <;>
          intro eff heff w heq <;> subst heq <;> rw [hT] at heff <;> simp at heff

/-- One loop iteration when Create reports a name conflict: rename with the
next suffix and retry. -/
theorem startLoop_conflict_step (env : Env) (base : String) (sIdx : Nat)
    (ev : TaskEvent) (fuel : Nat)
    (h : env.createTask ev = some StoreError.alreadyExists) :
    startLoop env base sIdx ev (fuel + 1) =
      startLoop env base (sIdx + 1)
        { ev with name := base ++ "-" ++ generateSuffix env sIdx } fuel := by
  rw [startLoop, h]
  simp

/-- One loop iteration when Create succeeds: break out with the created name. -/
theorem startLoop_none_step (env : Env) (base : String) (sIdx : Nat)
    (ev : TaskEvent) (fuel : Nat) (h : env.createTask ev = none) :
    startLoop env base sIdx ev (fuel + 1) =
      (Except.ok ev.name, [Effect.createTask ev]) := by
  rw [startLoop, h]

/-- One loop iteration when Create fails with a non-conflict error: return
that error. -/
theorem startLoop_err_step (env : Env) (base : String) (sIdx : Nat)
    (ev : TaskEvent) (fuel : Nat) (e : StoreError)
    (h : env.createTask ev = some e) (hne : e ≠ StoreError.alreadyExists) :
    startLoop env base sIdx ev (fuel + 1) = (Except.error e, []) := by
  rw [startLoop, h]
  simp [hne]

/-- When the first j attempted names conflict and attempt j is created,
startPreDeploymentChecks returns exactly the j-th generated name, having
created exactly that task. -/
theorem startPre_first_success (env : Env) (wi : WorkloadInstance) (j : Nat)
    (hj : j < 5)
    (hconf : ∀ m, m < j → env.createTask (attemptTaskEvent env wi m) =
      some StoreError.alreadyExists)
    (hok : env.createTask (attemptTaskEvent env wi j) = none) :
    startPreDeploymentChecks env wi =
      (Except.ok (attemptTaskEvent env wi j).name,
       [Effect.createTask (attemptTaskEvent env wi j)]) := by
  interval_cases j
  · exact startLoop_none_step env wi.name 1 (attemptTaskEvent env wi 0) 4 hok
  · calc startPreDeploymentChecks env wi
        = startLoop env wi.name 2 (attemptTaskEvent env wi 1) (3 + 1) :=
          startLoop_conflict_step env wi.name 1 (attemptTaskEvent env wi 0) 4
            (hconf 0 (by omega))
      _ = _ := startLoop_none_step env wi.name 2 (attemptTaskEvent env wi 1) 3 hok
  · calc startPreDeploymentChecks env wi
        = startLoop env wi.name 2 (attemptTaskEvent env wi 1) (3 + 1) :=
          startLoop_conflict_step env wi.name 1 (attemptTaskEvent env wi 0) 4
            (hconf 0 (by omega))
      _ = startLoop env wi.name 3 (attemptTaskEvent env wi 2) (2 + 1) :=
          startLoop_conflict_step env wi.name 2 (attemptTaskEvent env wi 1) 3
            (hconf 1 (by omega))
      _ = _ := startLoop_none_step env wi.name 3 (attemptTaskEvent env wi 2) 2 hok
  · calc startPreDeploymentChecks env wi
        = startLoop env wi.name 2 (attemptTaskEvent env wi 1) (3 + 1) :=
          startLoop_conflict_step env wi.name 1 (attemptTaskEvent env wi 0) 4
            (hconf 0 (by omega))
      _ = startLoop env wi.name 3 (attemptTaskEvent env wi 2) (2 + 1) :=
          startLoop_conflict_step env wi.name 2 (attemptTaskEvent env wi 1) 3
            (hconf 1 (by omega))
      _ = startLoop env wi.name 4 (attemptTaskEvent env wi 3) (1 + 1) :=
          startLoop_conflict_step env wi.name 3 (attemptTaskEvent env wi 2) 2
            (hconf 2 (by omega))
      _ = _ := startLoop_none_step env wi.name 4 (attemptTaskEvent env wi 3) 1 hok
  · calc startPreDeploymentChecks env wi
        = startLoop env wi.name 2 (attemptTaskEvent env wi 1) (3 + 1) :=
          startLoop_conflict_step env wi.name 1 (attemptTaskEvent env wi 0) 4
            (hconf 0 (by omega))
      _ = startLoop env wi.name 3 (attemptTaskEvent env wi 2) (2 + 1) :=
          startLoop_conflict_step env wi.name 2 (attemptTaskEvent env wi 1) 3
            (hconf 1 (by omega))
      _ = startLoop env wi.name 4 (attemptTaskEvent env wi 3) (1 + 1) :=
          startLoop_conflict_step env wi.name 3 (attemptTaskEvent env wi 2) 2
            (hconf 2 (by omega))
      _ = startLoop env wi.name 5 (attemptTaskEvent env wi 4) (0 + 1) :=
          startLoop_conflict_step env wi.name 4 (attemptTaskEvent env wi 3) 1
            (hconf 3 (by omega))
      _ = _ := startLoop_none_step env wi.name 5 (attemptTaskEvent env wi 4) 0 hok

/-- When the first j attempted names conflict and attempt j fails with a
non-conflict error, startPreDeploymentChecks returns that error, having
created nothing. -/
theorem startPre_first_err (env : Env) (wi : WorkloadInstance) (j : Nat)
    (e : StoreError) (hj : j < 5)
    (hconf : ∀ m, m < j → env.createTask (attemptTaskEvent env wi m) =
      some StoreError.alreadyExists)
    (herr : env.createTask (attemptTaskEvent env wi j) = some e)
    (hne : e ≠ StoreError.alreadyExists) :
    startPreDeploymentChecks env wi = (Except.error e, []) := by
  interval_cases j
  · exact startLoop_err_step env wi.name 1 (attemptTaskEvent env wi 0) 4 e herr hne
  · calc startPreDeploymentChecks env wi
        = startLoop env wi.name 2 (attemptTaskEvent env wi 1) (3 + 1) :=
          startLoop_conflict_step env wi.name 1 (attemptTaskEvent env wi 0) 4
            (hconf 0 (by omega))
      _ = _ := startLoop_err_step env wi.name 2 (attemptTaskEvent env wi 1) 3 e herr hne
  · calc startPreDeploymentChecks env wi
        = startLoop env wi.name 2 (attemptTaskEvent env wi 1) (3 + 1) :=
          startLoop_conflict_step env wi.name 1 (attemptTaskEvent env wi 0) 4
            (hconf 0 (by omega))
      _ = startLoop env wi.name 3 (attemptTaskEvent env wi 2) (2 + 1) :=
          startLoop_conflict_step env wi.name 2 (attemptTaskEvent env wi 1) 3
            (hconf 1 (by omega))
      _ = _ := startLoop_err_step env wi.name 3 (attemptTaskEvent env wi 2) 2 e herr hne
  · calc startPreDeploymentChecks env wi
        = startLoop env wi.name 2 (attemptTaskEvent env wi 1) (3 + 1) :=
          startLoop_conflict_step env wi.name 1 (attemptTaskEvent env wi 0) 4
            (hconf 0 (by omega))
      _ = startLoop env wi.name 3 (attemptTaskEvent env wi 2) (2 + 1) :=
          startLoop_conflict_step env wi.name 2 (attemptTaskEvent env wi 1) 3
            (hconf 1 (by omega))
      _ = startLoop env wi.name 4 (attemptTaskEvent env wi 3) (1 + 1) :=
          startLoop_conflict_step env wi.name 3 (attemptTaskEvent env wi 2) 2
            (hconf 2 (by omega))
      _ = _ := startLoop_err_step env wi.name 4 (attemptTaskEvent env wi 3) 1 e herr hne
  · calc startPreDeploymentChecks env wi
        = startLoop env wi.name 2 (attemptTaskEvent env wi 1) (3 + 1) :=
          startLoop_conflict_step env wi.name 1 (attemptTaskEvent env wi 0) 4
            (hconf 0 (by omega))
      _ = startLoop env wi.name 3 (attemptTaskEvent env wi 2) (2 + 1) :=
          startLoop_conflict_step env wi.name 2 (attemptTaskEvent env wi 1) 3
            (hconf 1 (by omega))
      _ = startLoop env wi.name 4 (attemptTaskEvent env wi 3) (1 + 1) :=
          startLoop_conflict_step env wi.name 3 (attemptTaskEvent env wi 2) 2
            (hconf 2 (by omega))
      _ = startLoop env wi.name 5 (attemptTaskEvent env wi 4) (0 + 1) :=
          startLoop_conflict_step env wi.name 4 (attemptTaskEvent env wi 3) 1
            (hconf 3 (by omega))
      _ = _ := startLoop_err_step env wi.name 5 (attemptTaskEvent env wi 4) 0 e herr hne

/-- One durable step never changes the post-deployment phase and keeps a
terminal pre-deployment phase terminal. -/
theorem nextState_step (env : Env) (wi : WorkloadInstance) :
    (nextState env wi).status.postDeploymentPhase = wi.status.postDeploymentPhase ∧
    (nextState env wi).status.postDeploymentTaskName = wi.status.postDeploymentTaskName ∧
    (wi.status.preDeploymentPhase.isTerminal = true →
      (nextState env wi).status.preDeploymentPhase.isTerminal = true) := by
  rcases reconcile_statusUpdates_shape env wi with h | ⟨s, hns, h⟩ | ⟨ph, hph, h⟩
  · rw [nextState, h]
    exact ⟨rfl, rfl, fun ht => ht⟩
  · rw [nextState, h]
    refine ⟨rfl, rfl, fun ht => ?_⟩
    rw [hns] at ht
    simp [Phase.isTerminal] at ht
  · rw [nextState, h]
    refine ⟨rfl, rfl, fun ht => ?_⟩
    rcases hph with h2 | h2 <;> simp [withPrePhase, h2, Phase.isTerminal]

/-- Claim C1, counterexample: on an instance whose pre-deployment phase is
Failed (post-deployment not yet terminal), the pass persists nothing and
leaves the post-deployment phase untouched, so it does not set it to Failed
and persist it in that same pass as claimed. -/
theorem C1_counterexample :
    wiPreFailed.status.preDeploymentPhase = Phase.failed ∧
    (reconcile envOk (Except.ok wiPreFailed)).statusUpdates = [] ∧
    (reconcile envOk (Except.ok wiPreFailed)).final = some wiPreFailed ∧
    wiPreFailed.status.postDeploymentPhase ≠ Phase.failed :=
  ⟨rfl, rfl, rfl, by decide⟩

/-- Claim C1 (amended): on an instance whose pre-deployment phase is Failed,
Reconcile creates no Check Task at all and neither the in-memory instance nor
any persisted snapshot has its post-deployment fields changed; moreover no
reconcile pass in any state ever creates a task with anything but the
pre-deployment spec payload, so no post-deployment Check Task is ever
created. -/
theorem C1_no_post_deployment_write :
    (∀ (env : Env) (wi : WorkloadInstance),
      wi.status.preDeploymentPhase = Phase.failed →
        (reconcile env (Except.ok wi)).createdTasks = [] ∧
        (∀ w, (reconcile env (Except.ok wi)).final = some w →
          w.status.postDeploymentPhase = wi.status.postDeploymentPhase ∧
          w.status.postDeploymentTaskName = wi.status.postDeploymentTaskName) ∧
        (∀ u, u ∈ (reconcile env (Except.ok wi)).statusUpdates →
          u.status.postDeploymentPhase = wi.status.postDeploymentPhase ∧
          u.status.postDeploymentTaskName = wi.status.postDeploymentTaskName)) ∧
    (∀ (env : Env) (wi : WorkloadInstance) (t : TaskEvent),
      t ∈ (reconcile env (Except.ok wi)).createdTasks →
        t.spec = { service := wi.name, application := wi.spec.appName,
                   jobSpec := wi.spec.preDeploymentCheck.jobSpec }) := by
  constructor
  · intro env wi hfail
    refine ⟨?_, ?_, ?_⟩
    · rcases reconcile_createdTasks_shape env wi with h | ⟨ev2, h, hnot, hrest⟩
      · exact h
      · rw [hfail] at hnot
        cases hnot
    · intro w hw
      rcases reconcile_final_shape env wi with h | ⟨nm, h⟩ | ⟨ph, hph, h⟩ <;>
        rw [h] at hw <;> simp at hw <;> subst hw <;> exact ⟨rfl, rfl⟩
    · intro u hu
      rcases reconcile_statusUpdates_shape env wi with h | ⟨s, hns, h⟩ | ⟨ph, hph, h⟩ <;>
        rw [h] at hu <;> simp at hu
      · subst hu
        exact ⟨rfl, rfl⟩
      · subst hu
        exact ⟨rfl, rfl⟩
  · intro env wi t ht
    rcases reconcile_createdTasks_shape env wi with h | ⟨ev2, h, hnot, hns, han, hsp⟩ <;>
      rw [h] at ht <;> simp at ht
    subst ht
    exact hsp

/-- Claim C2 (code bug): when the store reports a name-already-exists
conflict on all 5 attempted names, startPreDeploymentChecks exhausts its loop
and returns the sixth, never-attempted name with a nil error — and creates no
task — instead of returning an error as specified. -/
theorem C2_all_conflicts_returns_ok :
    envAllConflict.createTask (attemptTaskEvent envAllConflict wiBase 0) =
      some StoreError.alreadyExists ∧
    startPreDeploymentChecks envAllConflict wiBase =
      (Except.ok "checkout-s5", []) :=
  ⟨rfl, rfl⟩

/-- Claim C3 (code bug): a non-NotFound store error (here: unavailable) from
the Get of the referenced Check Task is swallowed: getPreDeploymentChecksEvent
returns the zero-valued Event with a nil error and Reconcile proceeds to
report requeue-after-5s as if a (not yet completed) task had been read,
instead of surfacing the failure as an error. -/
theorem C3_swallows_non_notfound_error :
    envUnavailable.getTask wiRunning.status.preDeploymentTaskName wiRunning.ns =
      Except.error StoreError.unavailable ∧
    getPreDeploymentChecksEvent envUnavailable wiRunning = Except.ok zeroTaskEvent ∧
    reconcile envUnavailable (Except.ok wiRunning) =
      { outcome := .requeueAfter 5, final := some wiRunning, effects := [] } :=
  ⟨rfl, rfl, rfl⟩

/-- Claim C4, counterexample: with the task already deleted (store answers
NotFound) but the pre-deployment phase still persisted as Running, the
replaying pass returns an error and persists nothing, rather than proceeding
to persist the terminal phase. -/
theorem C4_counterexample :
    wiRunning.status.preDeploymentPhase = Phase.running ∧
    envOk.getTask wiRunning.status.preDeploymentTaskName wiRunning.ns =
      Except.error StoreError.notFound ∧
    (reconcile envOk (Except.ok wiRunning)).outcome =
      ReconcileOutcome.error (ReconcileError.getTask StoreError.notFound) ∧
    (reconcile envOk (Except.ok wiRunning)).statusUpdates = [] :=
  ⟨rfl, rfl, rfl, rfl⟩

/-- Claim C4 (amended): in every state where the task is already gone but the
pre-deployment phase is still persisted as Running, the replaying pass
surfaces the NotFound as an error with no side effects; it does not self-heal
by persisting the terminal phase. -/
theorem C4_replay_after_delete_errors (env : Env) (wi : WorkloadInstance)
    (hrun : wi.status.preDeploymentPhase = Phase.running)
    (hgone : env.getTask wi.status.preDeploymentTaskName wi.ns =
      Except.error StoreError.notFound) :
    reconcile env (Except.ok wi) =
      { outcome := .error (.getTask StoreError.notFound), final := some wi,
        effects := [] } := by
  have hc : wi.IsCompleted = false := by
    simp [WorkloadInstance.IsCompleted, hrun, Phase.isTerminal]
  have hn : wi.IsDeploymentCheckNotCreated = false := by
    simp [WorkloadInstance.IsDeploymentCheckNotCreated, hrun]
  have hg : getPreDeploymentChecksEvent env wi = Except.error StoreError.notFound := by
    simp [getPreDeploymentChecksEvent, hgone]
  simp [reconcile, hc, hn, hg]

/-- Claim C4, witness of the amended theorem at the concrete state. -/
theorem C4_witness :
    reconcile envOk (Except.ok wiRunning) =
      { outcome := .error (.getTask StoreError.notFound), final := some wiRunning,
        effects := [] } :=
  C4_replay_after_delete_errors envOk wiRunning rfl rfl

/-- Claim C5, counterexample: the pass that folds the succeeded task into
status persists the terminal phase Succeeded with the task-name field still
holding the old non-empty name — the pass does not leave the persisted
task-name field empty. -/
theorem C5_counterexample :
    (reconcile envTaskDone (Except.ok wiRunning)).statusUpdates =
      [withPrePhase wiRunning Phase.succeeded] ∧
    (withPrePhase wiRunning Phase.succeeded).status.preDeploymentPhase.isTerminal
      = true ∧
    (withPrePhase wiRunning Phase.succeeded).status.preDeploymentTaskName =
      "checkout-s0" :=
  ⟨rfl, rfl, rfl⟩

/-- Claim C5 (amended): every persisted snapshot either sets phase Running
with a non-empty task name, or sets a terminal phase and leaves the
task-name field exactly as it was (the code never clears it, so the
non-empty-iff-Running direction fails after a terminal pass). -/
theorem C5_taskname_invariant_amended (env : Env) (wi : WorkloadInstance) :
    ∀ u ∈ (reconcile env (Except.ok wi)).statusUpdates,
      (u.status.preDeploymentPhase = Phase.running ∧
        u.status.preDeploymentTaskName ≠ "") ∨
      (u.status.preDeploymentPhase.isTerminal = true ∧
        u.status.preDeploymentTaskName = wi.status.preDeploymentTaskName) := by
  intro u hu
  rcases reconcile_statusUpdates_shape env wi with h | ⟨s, hns, h⟩ | ⟨ph, hph, h⟩
  · rw [h] at hu
    simp at hu
  · rw [h] at hu
    simp at hu
    subst hu
    left
    exact ⟨rfl, dash_name_ne_empty wi.name s⟩
  · rw [h] at hu
    simp at hu
    subst hu
    right
    rcases hph with h2 | h2 <;> subst h2 <;> exact ⟨rfl, rfl⟩

/-- Claim C5, witness of the amended theorem at the concrete snapshot. -/
theorem C5_witness :
    ((withPrePhase wiRunning Phase.succeeded).status.preDeploymentPhase =
        Phase.running ∧
      (withPrePhase wiRunning Phase.succeeded).status.preDeploymentTaskName ≠ "") ∨
    ((withPrePhase wiRunning Phase.succeeded).status.preDeploymentPhase.isTerminal
        = true ∧
      (withPrePhase wiRunning Phase.succeeded).status.preDeploymentTaskName =
        wiRunning.status.preDeploymentTaskName) :=
  C5_taskname_invariant_amended envTaskDone wiRunning
    (withPrePhase wiRunning Phase.succeeded) (by decide)

/-- Claim C6: across any sequence of reconcile passes, a terminal
pre-deployment phase stays terminal and a terminal post-deployment phase
stays terminal — neither ever transitions back to NotStarted or Running. -/
theorem C6_monotonic_phases (envs : List Env) (wi : WorkloadInstance) :
    (wi.status.preDeploymentPhase.isTerminal = true →
      (runSeq envs wi).status.preDeploymentPhase.isTerminal = true) ∧
    (wi.status.postDeploymentPhase.isTerminal = true →
      (runSeq envs wi).status.postDeploymentPhase.isTerminal = true) := by
  induction envs generalizing wi with
  | nil => exact ⟨fun h => h, fun h => h⟩
  | cons env envs ih =>
    rcases nextState_step env wi with ⟨hpost, hpostn, hpre⟩
    refine ⟨fun h => ?_, fun h => ?_⟩
    · exact (ih (nextState env wi)).1 (hpre h)
    · refine (ih (nextState env wi)).2 ?_
      rw [hpost]
      exact h

/-- Claim C6, witness at a concrete terminal instance and one pass. -/
theorem C6_witness :
    (runSeq [envOk] wiPreFailed).status.preDeploymentPhase.isTerminal = true :=
  (C6_monotonic_phases [envOk] wiPreFailed).1 rfl

/-- Claim C7, counterexample: on a non-completed instance whose check is not
yet created, a pass in which all 5 creation attempts report a name conflict
creates no Check Task at all and still returns requeue-after-5s instead of an
error, refuting both the exactly-one-task part and the
creation-failure-returns-error part of the claim. -/
theorem C7_counterexample :
    wiBase.IsCompleted = false ∧ wiBase.IsDeploymentCheckNotCreated = true ∧
    (reconcile envAllConflict (Except.ok wiBase)).createdTasks = [] ∧
    (reconcile envAllConflict (Except.ok wiBase)).outcome =
      ReconcileOutcome.requeueAfter 5 :=
  ⟨rfl, rfl, rfl, rfl⟩

/-- Claim C7 (amended): on a non-completed instance whose check is not yet
created, provided fewer than all 5 creation attempts report a name conflict:
the pass creates exactly one Check Task carrying the pre-deployment spec
payload, sets the pre-deployment phase to Running with the returned task name
stored, emits the started audit event, persists status, and returns
requeue-after-5s; a non-conflict creation error, an event-emission failure or
a status-persistence failure each abort the pass with an error. -/
theorem C7_create_pass_amended :
    (∀ (env : Env) (wi : WorkloadInstance) (j : Nat),
      wi.IsCompleted = false → wi.IsDeploymentCheckNotCreated = true →
      j < 5 →
      (∀ m, m < j → env.createTask (attemptTaskEvent env wi m) =
        some StoreError.alreadyExists) →
      env.createTask (attemptTaskEvent env wi j) = none →
      (attemptTaskEvent env wi j).spec =
        { service := wi.name, application := wi.spec.appName,
          jobSpec := wi.spec.preDeploymentCheck.jobSpec } ∧
      (env.createK8sEvent (generateK8sEvent
          (withPreRunning wi (attemptTaskEvent env wi j).name) "started"
          env.now) = none →
        env.statusUpdate (withPreRunning wi (attemptTaskEvent env wi j).name) = none →
        reconcile env (Except.ok wi) =
          { outcome := .requeueAfter 5,
            final := some (withPreRunning wi (attemptTaskEvent env wi j).name),
            effects := [Effect.createTask (attemptTaskEvent env wi j),
              Effect.createK8sEvent (generateK8sEvent
                (withPreRunning wi (attemptTaskEvent env wi j).name) "started"
                env.now),
              Effect.updateInstanceStatus
                (withPreRunning wi (attemptTaskEvent env wi j).name)] }) ∧
      (∀ e, env.createK8sEvent (generateK8sEvent
          (withPreRunning wi (attemptTaskEvent env wi j).name) "started"
          env.now) = some e →
        (reconcile env (Except.ok wi)).outcome = .error (.createEvent e)) ∧
      (∀ e, env.createK8sEvent (generateK8sEvent
          (withPreRunning wi (attemptTaskEvent env wi j).name) "started"
          env.now) = none →
        env.statusUpdate (withPreRunning wi (attemptTaskEvent env wi j).name) =
          some e →
        (reconcile env (Except.ok wi)).outcome = .error (.statusUpdate e))) ∧
    (∀ (env : Env) (wi : WorkloadInstance) (j : Nat) (e : StoreError),
      wi.IsCompleted = false → wi.IsDeploymentCheckNotCreated = true →
      j < 5 →
      (∀ m, m < j → env.createTask (attemptTaskEvent env wi m) =
        some StoreError.alreadyExists) →
      env.createTask (attemptTaskEvent env wi j) = some e →
      e ≠ StoreError.alreadyExists →
      reconcile env (Except.ok wi) =
        { outcome := .error (.startChecks e), final := some wi,
          effects := [] }) := by
  constructor
  · intro env wi j hc hn hj hconf hok
    have hs := startPre_first_success env wi j hj hconf hok
    refine ⟨rfl, fun hk hu => ?_, fun e hk => ?_, fun e hk hu => ?_⟩
    · simp [withPreRunning] at hk hu
      simp [reconcile, hc, hn, hs, withPreRunning, hk, hu]
    · simp [withPreRunning] at hk
      simp [reconcile, hc, hn, hs, withPreRunning, hk]
    · simp [withPreRunning] at hk hu
      simp [reconcile, hc, hn, hs, withPreRunning, hk, hu]
  · intro env wi j e hc hn hj hconf herr hne
    have hs := startPre_first_err env wi j e hj hconf herr hne
    simp [reconcile, hc, hn, hs]

/-- Claim C7, witness of the amended theorem: the concrete fresh instance, a
conflict-free store, first attempt succeeds. -/
theorem C7_witness :
    reconcile envOk (Except.ok wiBase) =
      { outcome := .requeueAfter 5,
        final := some (withPreRunning wiBase (attemptTaskEvent envOk wiBase 0).name),
        effects := [Effect.createTask (attemptTaskEvent envOk wiBase 0),
          Effect.createK8sEvent (generateK8sEvent
            (withPreRunning wiBase (attemptTaskEvent envOk wiBase 0).name) "started"
            envOk.now),
          Effect.updateInstanceStatus
            (withPreRunning wiBase (attemptTaskEvent envOk wiBase 0).name)] } :=
  ((C7_create_pass_amended.1 envOk wiBase 0 rfl rfl (by omega)
      (fun m hm => absurd hm (Nat.not_lt_zero m)) rfl).2.1 rfl rfl)

/-- Claim C8: a pass that fetches the referenced Check Task successfully
returns requeue-after-5s with no side effects when the task is not completed;
when it is completed, it maps task Succeeded to instance phase Succeeded and
task Failed to Failed and, with the store calls succeeding, deletes the task,
persists status, emits the finished audit event — in that order — and
returns done. -/
theorem C8_poll_pass (env : Env) (wi : WorkloadInstance) (task : TaskEvent)
    (hc : wi.IsCompleted = false) (hn : wi.IsDeploymentCheckNotCreated = false)
    (hget : env.getTask wi.status.preDeploymentTaskName wi.ns = Except.ok task) :
    (task.IsCompleted = false →
      reconcile env (Except.ok wi) =
        { outcome := .requeueAfter 5, final := some wi, effects := [] }) ∧
    (task.IsCompleted = true →
      ((task.status.phase = EventPhase.succeeded →
         (withPrePhase wi (mapEventPhase task)).status.preDeploymentPhase =
           Phase.succeeded) ∧
       (task.status.phase = EventPhase.failed →
         (withPrePhase wi (mapEventPhase task)).status.preDeploymentPhase =
           Phase.failed)) ∧
      (env.deleteTask task = none →
        env.statusUpdate (withPrePhase wi (mapEventPhase task)) = none →
        env.createK8sEvent (generateK8sEvent (withPrePhase wi (mapEventPhase task))
          "finished" env.now) = none →
        reconcile env (Except.ok wi) =
          { outcome := .done, final := some (withPrePhase wi (mapEventPhase task)),
            effects := [Effect.deleteTask task,
              Effect.updateInstanceStatus (withPrePhase wi (mapEventPhase task)),
              Effect.createK8sEvent (generateK8sEvent
                (withPrePhase wi (mapEventPhase task)) "finished" env.now)] })) := by
  have hg : getPreDeploymentChecksEvent env wi = Except.ok task := by
    simp [getPreDeploymentChecksEvent, hget]
  refine ⟨fun hncomp => ?_,
    fun hcomp => ⟨⟨fun hs => ?_, fun hf => ?_⟩, fun hd hu hk => ?_⟩⟩
  · simp [reconcile, hc, hn, hg, hncomp]
  · simp [withPrePhase, mapEventPhase, hs]
  · simp [withPrePhase, mapEventPhase, hf]
  · simp [withPrePhase, mapEventPhase] at hu hk
    simp [reconcile, hc, hn, hg, hcomp, hd, hu, hk, withPrePhase, mapEventPhase]

/-- Claim C8, witness at the concrete running instance with its succeeded
task: the pass deletes the task, persists Succeeded, emits finished, returns
done. -/
theorem C8_witness :
    reconcile envTaskDone (Except.ok wiRunning) =
      { outcome := .done,
        final := some (withPrePhase wiRunning (mapEventPhase taskSucceeded)),
        effects := [Effect.deleteTask taskSucceeded,
          Effect.updateInstanceStatus (withPrePhase wiRunning
            (mapEventPhase taskSucceeded)),
          Effect.createK8sEvent (generateK8sEvent
            (withPrePhase wiRunning (mapEventPhase taskSucceeded)) "finished"
            envTaskDone.now)] } :=
  ((C8_poll_pass envTaskDone wiRunning taskSucceeded rfl rfl rfl).2 rfl).2 rfl rfl rfl

/-- Claim C9: every audit event built by the emitter carries the instance
kind, namespace and name as involved object, the resulting phase string as
reason, the message pre-deployment checks are started or finished, type
Normal, the instance annotations verbatim, and all three timestamps equal to
the emission instant. -/
theorem C9_audit_event_fields (wi : WorkloadInstance) (eventType : String)
    (now : Nat) (htype : eventType = "started" ∨ eventType = "finished") :
    (generateK8sEvent wi eventType now).involvedKind = wi.kind ∧
    (generateK8sEvent wi eventType now).involvedNamespace = wi.ns ∧
    (generateK8sEvent wi eventType now).involvedName = wi.name ∧
    (generateK8sEvent wi eventType now).reason =
      wi.status.preDeploymentPhase.toStr ∧
    (generateK8sEvent wi eventType now).message =
      "pre-deployment checks are " ++ eventType ∧
    ((generateK8sEvent wi eventType now).message =
        "pre-deployment checks are started" ∨
      (generateK8sEvent wi eventType now).message =
        "pre-deployment checks are finished") ∧
    (generateK8sEvent wi eventType now).type = "Normal" ∧
    (generateK8sEvent wi eventType now).annots = wi.annots ∧
    (generateK8sEvent wi eventType now).eventTime = now ∧
    (generateK8sEvent wi eventType now).firstTimestamp = now ∧
    (generateK8sEvent wi eventType now).lastTimestamp = now := by
  refine ⟨rfl, rfl, rfl, rfl, rfl, ?_, rfl, rfl, rfl, rfl, rfl⟩
  rcases htype with h | h
  · left
    rw [h]
    rfl
  · right
    rw [h]
    rfl

/-- Claim C9, witness at the concrete instance and the started event type. -/
theorem C9_witness :
    (generateK8sEvent wiBase "started" 7).involvedKind = wiBase.kind ∧
    (generateK8sEvent wiBase "started" 7).involvedNamespace = wiBase.ns ∧
    (generateK8sEvent wiBase "started" 7).involvedName = wiBase.name ∧
    (generateK8sEvent wiBase "started" 7).reason =
      wiBase.status.preDeploymentPhase.toStr ∧
    (generateK8sEvent wiBase "started" 7).message =
      "pre-deployment checks are " ++ "started" ∧
    ((generateK8sEvent wiBase "started" 7).message =
        "pre-deployment checks are started" ∨
      (generateK8sEvent wiBase "started" 7).message =
        "pre-deployment checks are finished") ∧
    (generateK8sEvent wiBase "started" 7).type = "Normal" ∧
    (generateK8sEvent wiBase "started" 7).annots = wiBase.annots ∧
    (generateK8sEvent wiBase "started" 7).eventTime = 7 ∧
    (generateK8sEvent wiBase "started" 7).firstTimestamp = 7 ∧
    (generateK8sEvent wiBase "started" 7).lastTimestamp = 7 :=
  C9_audit_event_fields wiBase "started" 7 (Or.inl rfl)

/-- Claim C10: a reconcile pass mutates only the pre-deployment status
fields: every persisted snapshot and the in-memory instance at return keep
the identity, kind, annotations, spec and both post-deployment status fields
of the fetched instance, and no pass ever deletes the workload instance. -/
theorem C10_frame (env : Env) (wi : WorkloadInstance) :
    (∀ u ∈ (reconcile env (Except.ok wi)).statusUpdates,
      u.name = wi.name ∧ u.ns = wi.ns ∧ u.kind = wi.kind ∧
      u.annots = wi.annots ∧ u.spec = wi.spec ∧
      u.status.postDeploymentPhase = wi.status.postDeploymentPhase ∧
      u.status.postDeploymentTaskName = wi.status.postDeploymentTaskName) ∧
    (∀ w, (reconcile env (Except.ok wi)).final = some w →
      w.name = wi.name ∧ w.ns = wi.ns ∧ w.kind = wi.kind ∧
      w.annots = wi.annots ∧ w.spec = wi.spec ∧
      w.status.postDeploymentPhase = wi.status.postDeploymentPhase ∧
      w.status.postDeploymentTaskName = wi.status.postDeploymentTaskName) ∧
    (∀ eff ∈ (reconcile env (Except.ok wi)).effects,
      ∀ w, eff ≠ Effect.deleteInstance w) := by
  refine ⟨?_, ?_, reconcile_no_instance_delete env (Except.ok wi)⟩
  · intro u hu
    rcases reconcile_statusUpdates_shape env wi with h | ⟨s, hns, h⟩ | ⟨ph, hph, h⟩ <;>
      rw [h] at hu <;> simp at hu
    · subst hu
      exact ⟨rfl, rfl, rfl, rfl, rfl, rfl, rfl⟩
    · subst hu
      exact ⟨rfl, rfl, rfl, rfl, rfl, rfl, rfl⟩
  · intro w hw
    rcases reconcile_final_shape env wi with h | ⟨nm, h⟩ | ⟨ph, hph, h⟩ <;>
      rw [h] at hw <;> simp at hw <;> subst hw <;>
      exact ⟨rfl, rfl, rfl, rfl, rfl, rfl, rfl⟩

/-- Claim C10, witness at the concrete persisted snapshot of the completion
pass. -/
theorem C10_witness :
    (withPrePhase wiRunning Phase.succeeded).name = wiRunning.name ∧
    (withPrePhase wiRunning Phase.succeeded).ns = wiRunning.ns ∧
    (withPrePhase wiRunning Phase.succeeded).kind = wiRunning.kind ∧
    (withPrePhase wiRunning Phase.succeeded).annots = wiRunning.annots ∧
    (withPrePhase wiRunning Phase.succeeded).spec = wiRunning.spec ∧
    (withPrePhase wiRunning Phase.succeeded).status.postDeploymentPhase =
      wiRunning.status.postDeploymentPhase ∧
    (withPrePhase wiRunning Phase.succeeded).status.postDeploymentTaskName =
      wiRunning.status.postDeploymentTaskName :=
  (C10_frame envTaskDone wiRunning).1 (withPrePhase wiRunning Phase.succeeded)
    (by decide)

/-- Claim C1, witness of the amended theorem at the concrete failed
instance. -/
theorem C1_witness :
    (reconcile envOk (Except.ok wiPreFailed)).createdTasks = [] ∧
    (∀ w, (reconcile envOk (Except.ok wiPreFailed)).final = some w →
      w.status.postDeploymentPhase = wiPreFailed.status.postDeploymentPhase ∧
      w.status.postDeploymentTaskName = wiPreFailed.status.postDeploymentTaskName) :=
  ⟨(C1_no_post_deployment_write.1 envOk wiPreFailed rfl).1,
   (C1_no_post_deployment_write.1 envOk wiPreFailed rfl).2.1⟩
